import Mathlib

/-!
Verification of the fetch-orchestration and sentiment-annotation pipeline of
the eminsights backend.  Each JavaScript function named in the claims is
shallowly embedded as an executable Lean definition; external effects
(HTTP calls to the scoring service, the platform APIs, and MongoDB) are
passed in explicitly as oracle parameters or as explicit store state, and
the trace of remote invocations is returned alongside the result where a
claim is about whether a call happened.
-/

/-! ## JavaScript number and value primitives

JS numbers are IEEE doubles; we model the values relevant to the embedded
code as exact rationals extended with the three non-finite values.  `typeof
x === "number"` is true for `nan` and the infinities, and `Math.min` /
`Math.max` propagate `nan`, which is exactly the behaviour the claims about
`normalizeSentimentResult` turn on. -/

inductive JsNum where
  | fin (q : ℚ)
  | posInf
  | negInf
  | nan
deriving DecidableEq, Repr

/-- `Math.min(a, b)`: NaN-propagating minimum. -/
def jsMin : JsNum → JsNum → JsNum
  | JsNum.nan, _ => JsNum.nan
  | _, JsNum.nan => JsNum.nan
  | JsNum.negInf, _ => JsNum.negInf
  | _, JsNum.negInf => JsNum.negInf
  | JsNum.posInf, b => b
  | a, JsNum.posInf => a
  | JsNum.fin a, JsNum.fin b => JsNum.fin (min a b)

/-- `Math.max(a, b)`: NaN-propagating maximum. -/
def jsMax : JsNum → JsNum → JsNum
  | JsNum.nan, _ => JsNum.nan
  | _, JsNum.nan => JsNum.nan
  | JsNum.posInf, _ => JsNum.posInf
  | _, JsNum.posInf => JsNum.posInf
  | JsNum.negInf, b => b
  | a, JsNum.negInf => a
  | JsNum.fin a, JsNum.fin b => JsNum.fin (max a b)

/-- A JS value as it can appear in a parsed service response field. -/
inductive JsVal where
  | undef
  | nullv
  | num (n : JsNum)
  | str (s : String)
  | boolean (b : Bool)
deriving DecidableEq, Repr

/-- `typeof v === "number"` (true also for NaN and the infinities). -/
def JsVal.isNumber : JsVal → Bool
  | JsVal.num _ => true
  | _ => false

/-- A finite JsNum lying in the closed unit interval. -/
def jsInUnit : JsNum → Bool
  | JsNum.fin q => decide (0 ≤ q) && decide (q ≤ 1)
  | _ => false

/-! ## Whitespace utilities

`String.prototype.trim` and the `replace(/\s+/g, " ")` normalisation used by
`extractText`.  The whitespace class is modelled by the ASCII whitespace
characters that can occur in the embedded inputs. -/

def isWsChar (c : Char) : Bool :=
  c = ' ' || c = '\t' || c = '\n' || c = '\r' || c = '\x0b' || c = '\x0c'

/-- `trim()` on the character list. -/
def jsTrimL (l : List Char) : List Char :=
  ((l.dropWhile isWsChar).reverse.dropWhile isWsChar).reverse

/-- `replace(/\s+/g, " ")` on the character list: every maximal run of
whitespace becomes a single space.  The flag records whether the previous
character was inside a whitespace run. -/
def collapseGo : Bool → List Char → List Char
  | _, [] => []
  | prevWs, c :: rest =>
    if isWsChar c then
      if prevWs then collapseGo true rest
      else ' ' :: collapseGo true rest
    else c :: collapseGo false rest

def collapseWsL (l : List Char) : List Char := collapseGo false l

def jsTrim (s : String) : String := String.mk (jsTrimL s.data)

def collapseWs (s : String) : String := String.mk (collapseWsL s.data)

/-- JS `a || b` for an optional string `a` (absent and `""` are falsy). -/
def orElseStr (a : Option String) (b : String) : String :=
  match a with
  | some s => if s = "" then b else s
  | none => b

/-- JS truthiness of an optional string. -/
def truthyOpt (s : Option String) : Bool :=
  match s with
  | some t => t ≠ ""
  | none => false

/-! ## Post shape

The fields of a post object that the sentiment code reads.  Absent fields
are `none`; the `_id`/`keyword` fields only feed log lines and the error
records and are not needed by any claim, and the `analysis` sub-object
mirrors the top-level sentiment fields, so they are elided. -/

structure GPost where
  platform : Option String
  contentText : Option String
  contentDescription : Option String
  contentTitle : Option String
  text : Option String
  title : Option String
  summary : Option String
deriving DecidableEq, Repr

/-- A post with every field absent. -/
def GPost.empty : GPost := ⟨none, none, none, none, none, none, none⟩

/-! ## `extractText` (keras-gateway file, lines 464-503)

Google posts combine title and snippet; other platforms fall back through
`content.text`, `content.description`, `text`, `title`, `content.title`,
`summary`; any result shorter than 3 characters after trimming and
whitespace collapsing counts as empty. -/

def extractText (post : GPost) : String :=
  if post.platform = some "google" || post.platform = some "Google" then
    let t := orElseStr post.contentTitle (orElseStr post.title "")
    let snippet :=
      orElseStr post.contentText
        (orElseStr post.contentDescription (orElseStr post.text ""))
    let combined := jsTrim (t ++ " " ++ snippet)
    if 3 ≤ combined.length then collapseWs combined else ""
  else
    let t :=
      orElseStr post.contentText
        (orElseStr post.contentDescription
          (orElseStr post.text
            (orElseStr post.title
              (orElseStr post.contentTitle (orElseStr post.summary "")))))
    let cleaned := collapseWs (jsTrim t)
    if cleaned.length < 3 then "" else cleaned

/-- `extractText` of the Gemini service file (sentiment.service.js lines
90-113): same fallback chain and length threshold, without the Google
branch. -/
def extractTextGem (post : GPost) : String :=
  let t :=
    orElseStr post.contentText
      (orElseStr post.contentDescription
        (orElseStr post.text
          (orElseStr post.title
            (orElseStr post.contentTitle (orElseStr post.summary "")))))
  let cleaned := collapseWs (jsTrim t)
  if cleaned.length < 3 then "" else cleaned

/-! ## `normalizeSentimentResult`

Identical definitions appear in the keras-gateway file (lines 520-536) and
in sentiment.service.js (lines 158-174); this is that shared code.  An
unrecognized label defaults to neutral; a `typeof number` score is clamped
with `Math.max(0, Math.min(1, x))`; a non-number score is replaced by the
per-label default from `DEFAULT_SCORES`. -/

def sentimentLabels : List String := ["positive", "neutral", "negative"]

def defaultScore (s : String) : ℚ :=
  if s = "positive" then 72/100
  else if s = "neutral" then 1/2
  else if s = "negative" then 28/100
  else 0   -- unreachable: callers only pass one of the three labels

def jsClamp01 (n : JsNum) : JsNum := jsMax (JsNum.fin 0) (jsMin (JsNum.fin 1) n)

structure ParsedResult where
  sentiment : JsVal
  sentimentScore : JsVal
  confidence : JsVal
deriving DecidableEq, Repr

structure NormalizedResult where
  sentiment : String
  sentimentScore : JsNum
  confidence : Option JsNum
deriving DecidableEq, Repr

def normalizeSentimentResult (parsed : ParsedResult) : NormalizedResult :=
  let sentiment :=
    match parsed.sentiment with
    | JsVal.str s => if s ∈ sentimentLabels then s else "neutral"
    | _ => "neutral"
  let sentimentScore :=
    match parsed.sentimentScore with
    | JsVal.num n => jsClamp01 n
    | _ => JsNum.fin (defaultScore sentiment)
  let confidence :=
    match parsed.confidence with
    | JsVal.num n => some (jsClamp01 n)
    | _ => none
  ⟨sentiment, sentimentScore, confidence⟩

/-! ## Errors and the remote `/analyze` call (keras-gateway file)

A thrown JS error is modelled by its constructor name, its `code` property
and the HTTP status of its `response` property when that property exists.
`APIError` instances (lines 388-393) carry `code = "API_ERROR"` and no
`response` property. -/

structure JsError where
  name : String
  code : Option String
  responseStatus : Option ℕ
  message : String
deriving DecidableEq, Repr

def apiError (msg : String) : JsError := ⟨"APIError", some "API_ERROR", none, msg⟩

/-- One result object of the Python scoring service for one post. -/
structure SvcResult where
  sentiment : Option String
  sentimentScore : Option ℚ
  sentimentConfidence : Option ℚ
  sentimentSource : Option String
  error : Option String
deriving DecidableEq, Repr

/-- The outcome of the axios POST to `/analyze` as seen by
`callPythonService`: a 2xx response whose body may or may not have a
`results` field, an HTTP error response, a transport failure where the
request got no response (`error.request` set, `error.code` like
ECONNREFUSED), or a request-setup failure. -/
inductive AxiosOutcome where
  | ok (results : Option (List SvcResult))
  | httpError (status : ℕ) (detail : String)
  | requestError (code : String) (message : String)
  | setupError (message : String)
deriving DecidableEq, Repr

/-- `callPythonService` (lines 593-666): every axios failure and every
malformed body is re-thrown as an `APIError`; in particular the original
transport `error.code` and `error.response` are not propagated. -/
def callPythonService : AxiosOutcome → Except JsError (List SvcResult)
  | AxiosOutcome.ok (some rs) => Except.ok rs
  | AxiosOutcome.ok none =>
      Except.error (apiError "Invalid response format from Python service")
  | AxiosOutcome.httpError _ detail =>
      Except.error (apiError ("Python service error: " ++ detail))
  | AxiosOutcome.requestError _ _ =>
      Except.error (apiError "Python service is not responding")
  | AxiosOutcome.setupError m =>
      Except.error (apiError ("Failed to call Python service: " ++ m))

/-- The transport-failure classification of `retryWithBackoff`
(lines 559-562). -/
def isNetworkError (e : JsError) : Bool :=
  e.code = some "ECONNREFUSED" || e.code = some "ETIMEDOUT" ||
    e.code = some "ENOTFOUND" ||
    (match e.responseStatus with
     | some s => decide (500 ≤ s)
     | none => false)

/-- The `for (attempt = 0; attempt <= maxRetries; attempt++)` loop of
`retryWithBackoff` (lines 549-582).  `fn` is the attempt-indexed outcome of
the retried thunk; the second component counts how many times the thunk ran.
The fuel argument equals `maxRetries + 1 - attempt` and only exists for
structural recursion; the fuel-zero case is unreachable from
`retryWithBackoff`. -/
def retryAux (fn : ℕ → Except JsError α) (maxRetries : ℕ) :
    ℕ → ℕ → Except JsError α × ℕ
  | 0, attempt => (Except.error (apiError "Max retries exceeded"), attempt)
  | fuel + 1, attempt =>
    match fn attempt with
    | Except.ok a => (Except.ok a, attempt + 1)
    | Except.error e =>
      if attempt < maxRetries && isNetworkError e then
        retryAux fn maxRetries fuel (attempt + 1)
      else if !(isNetworkError e) then (Except.error e, attempt + 1)
      else (Except.error (apiError "Max retries exceeded"), attempt + 1)

def retryWithBackoff (fn : ℕ → Except JsError α) (maxRetries : ℕ) :
    Except JsError α × ℕ :=
  retryAux fn maxRetries (maxRetries + 1) 0

/-! ## Batch analysis `analyzePostsSentiment` (keras-gateway file, lines 777-920) -/

/-- `batchSize = Math.max(1, Math.min(50, concurrency * 10))` (line 811). -/
def batchSizeOf (concurrency : ℕ) : ℕ := max 1 (min 50 (concurrency * 10))

/-- `posts.slice(i, i + batchSize)` iterated: the sub-batches sent to the
service, in order.  `acc` is the current (reversed) sub-batch being filled;
a sub-batch is emitted when it reaches `size` elements. -/
def chunksGo (size : ℕ) : List α → List α → List (List α)
  | [], acc => if acc.isEmpty then [] else [acc.reverse]
  | x :: xs, acc =>
    if (x :: acc).length = size then (x :: acc).reverse :: chunksGo size xs []
    else chunksGo size xs (x :: acc)

def chunks (n : ℕ) (l : List α) : List (List α) := chunksGo n l []

/-- One element of the gateway's `results` array: the spread `...post`
(kept whole as the `post` field) plus the sentiment fields set by the
success branch (lines 831-846) or the failure branches (lines 859-867 and
892-900). -/
structure BatchItem where
  post : GPost
  sentiment : Option String
  sentimentScore : Option ℚ
  sentimentConfidence : Option ℚ
  sentimentSource : String
  sentimentError : Option String
deriving DecidableEq, Repr

def successItem (p : GPost) (r : SvcResult) : BatchItem :=
  ⟨p, r.sentiment, r.sentimentScore, r.sentimentConfidence,
    orElseStr r.sentimentSource "llm", none⟩

def failItem (p : GPost) (errCode : String) : BatchItem :=
  ⟨p, none, none, none, "error", some errCode⟩

/-- `result?.error || 'NO_RESULT'` (line 853). -/
def svcErrCode (r : Option SvcResult) : String :=
  match r with
  | some res => orElseStr res.error "NO_RESULT"
  | none => "NO_RESULT"

/-- `error.code || 'BATCH_ERROR'` (line 889). -/
def errCodeOf (e : JsError) : String := orElseStr e.code "BATCH_ERROR"

/-- Accumulated outcome of processing sub-batches: the pushed results, the
`successful`/`failed` counters, the pushed error codes, and the trace of
sub-batches handed to the remote service. -/
structure ChunkAcc where
  items : List BatchItem
  succ : ℕ
  fail : ℕ
  errs : List String
  calls : List (List GPost)
deriving Repr

/-- The `for (let j = 0; ...)` loop over one sub-batch whose remote call
returned `rs` (lines 825-879): the result at index `j` is a success exactly
when `batchResults[j]` exists and has a truthy `sentiment`. -/
def chunkOkAux (rs : List SvcResult) : List GPost → ℕ → List BatchItem × ℕ × ℕ × List String
  | [], _ => ([], 0, 0, [])
  | p :: ps, j =>
    let rest := chunkOkAux rs ps (j + 1)
    match rs.get? j with
    | some r =>
      if truthyOpt r.sentiment then
        (successItem p r :: rest.1, rest.2.1 + 1, rest.2.2.1, rest.2.2.2)
      else
        (failItem p (svcErrCode (some r)) :: rest.1,
          rest.2.1, rest.2.2.1 + 1, svcErrCode (some r) :: rest.2.2.2)
    | none =>
      (failItem p (svcErrCode none) :: rest.1,
        rest.2.1, rest.2.2.1 + 1, svcErrCode none :: rest.2.2.2)

/-- Processing of one sub-batch: the remote call is
`retryWithBackoff(() => callPythonService(batch))`, abstracted as the
oracle `svc`; on a throw, every post of the sub-batch is marked failed
(lines 880-902). -/
def processChunk (svc : List GPost → Except JsError (List SvcResult))
    (c : List GPost) : List BatchItem × ℕ × ℕ × List String :=
  match svc c with
  | Except.ok rs => chunkOkAux rs c 0
  | Except.error e =>
    (c.map (fun p => failItem p (errCodeOf e)), 0, c.length,
      c.map (fun _ => errCodeOf e))

def runChunks (svc : List GPost → Except JsError (List SvcResult)) :
    List (List GPost) → ChunkAcc
  | [] => ⟨[], 0, 0, [], []⟩
  | c :: cs =>
    let here := processChunk svc c
    let rest := runChunks svc cs
    ⟨here.1 ++ rest.items, here.2.1 + rest.succ, here.2.2.1 + rest.fail,
      here.2.2.2 ++ rest.errs, c :: rest.calls⟩

/-- The return object of the batch entry point, plus the trace `calls` of
sub-batches sent to the remote service (the explicit-state rendering of the
axios effect). -/
structure BatchReport where
  results : List BatchItem
  total : ℕ
  successful : ℕ
  failed : ℕ
  errors : List String
  calls : List (List GPost)
deriving Repr

/-- `analyzePostsSentiment(posts, { concurrency })` (lines 777-920).  The
`posts.length === 0` early return is lines 788-796; otherwise the input is
cut into sub-batches of `batchSize` and each sub-batch goes to the remote
service via `svc` — there is no per-post text check on this path. -/
def analyzePostsSentimentG (posts : List GPost)
    (svc : List GPost → Except JsError (List SvcResult))
    (concurrency : ℕ) : BatchReport :=
  if posts = [] then ⟨[], 0, 0, 0, [], []⟩
  else
    let acc := runChunks svc (chunks (batchSizeOf concurrency) posts)
    ⟨acc.items, posts.length, acc.succ, acc.fail, acc.errs, acc.calls⟩

/-! ## Single-post path `analyzePostSentiment` (keras-gateway file, lines 677-763) -/

/-- The return shape of the single-post path; `sentimentAnalyzedAt` is a
wall-clock value and is modelled only by its presence. -/
structure SingleOutcome where
  sentiment : Option String
  sentimentScore : Option ℚ
  sentimentConfidence : Option ℚ
  hasAnalyzedAt : Bool
  sentimentSource : String
  error : Option String
deriving DecidableEq, Repr

/-- `x || d` on an optional number: `0` is falsy in JS (lines 732-734). -/
def jsOrQ (a : Option ℚ) (b : ℚ) : ℚ :=
  match a with
  | some q => if q = 0 then b else q
  | none => b

/-- `analyzePostSentiment(post)`.  `call` is the outcome of
`retryWithBackoff(() => callPythonService([post]))`; the boolean in the
result records whether that remote call was made.  The empty-text branch
(lines 690-705) returns the NO_TEXT outcome without touching the service;
an empty results array raises `APIError` caught by the outer handler
(lines 716-718 and 752-761). -/
def analyzePostSentimentG (post : GPost)
    (call : Except JsError (List SvcResult)) : SingleOutcome × Bool :=
  let t := extractText post
  if t = "" then
    (⟨none, none, none, false, "none", some "NO_TEXT"⟩, false)
  else
    match call with
    | Except.ok [] =>
      (⟨none, none, none, false, "error", some "API_ERROR"⟩, true)
    | Except.ok (r :: _) =>
      (⟨some (orElseStr r.sentiment "neutral"),
        some (jsOrQ r.sentimentScore (1/2)),
        some (jsOrQ r.sentimentConfidence 0),
        true, orElseStr r.sentimentSource "llm", none⟩, true)
    | Except.error e =>
      (⟨none, none, none, false, "error",
        some (orElseStr e.code "UNKNOWN_ERROR")⟩, true)

/-! ## Gemini-based service `analyzePostSentiment` (sentiment.service.js, lines 309-492)

The Gemini request/JSON-parse pipeline always produces some parsed object
when the API call succeeds (a parse failure falls back to keyword spotting
and still builds `{sentiment, sentimentScore}`), so the remote interaction
is abstracted as `api : Except Unit ParsedResult`: `Except.error` is a
thrown Gemini call, `Except.ok parsed` the parsed (or fallback-extracted)
response.  `evaluateLexicalHeuristics(text)` (lines 254-302) is a pure
function of the text whose regex machinery is abstracted as the oracle
`lex`; by construction its non-null results carry
`sentiment = netScore > 0 ? "positive" : "negative"`. -/

/-- JS `<` on numbers: false whenever NaN is involved. -/
def jsLt : JsNum → JsNum → Bool
  | JsNum.nan, _ => false
  | _, JsNum.nan => false
  | JsNum.posInf, _ => false
  | JsNum.negInf, JsNum.negInf => false
  | JsNum.negInf, _ => true
  | JsNum.fin _, JsNum.negInf => false
  | JsNum.fin _, JsNum.posInf => true
  | JsNum.fin a, JsNum.fin b => decide (a < b)

def jsSubQ : JsNum → ℚ → JsNum
  | JsNum.fin a, q => JsNum.fin (a - q)
  | JsNum.posInf, _ => JsNum.posInf
  | JsNum.negInf, _ => JsNum.negInf
  | JsNum.nan, _ => JsNum.nan

def jsAbs : JsNum → JsNum
  | JsNum.fin a => JsNum.fin |a|
  | JsNum.nan => JsNum.nan
  | _ => JsNum.posInf

/-- A non-null result of `evaluateLexicalHeuristics`. -/
structure LexAdj where
  sentiment : String
  sentimentScore : ℚ
  confidence : ℚ
deriving DecidableEq, Repr

/-- The value returned by the Gemini `analyzePostSentiment`.  The final two
fields state which error markers the object carries: no return path of this
function sets an `error` or `sentimentError` property, so both are `none`
on every path. -/
structure GemResult where
  sentiment : Option String
  sentimentScore : Option JsNum
  hasAnalyzedAt : Bool
  sentimentConfidence : Option JsNum
  sentimentSource : Option String
  error : Option String
  sentimentError : Option String
deriving DecidableEq, Repr

def analyzePostSentimentGem (post : GPost) (api : Except Unit ParsedResult)
    (lex : Option LexAdj) : GemResult :=
  let t := extractTextGem post
  if t = "" then
    -- lines 313-328: `{ sentiment: null, sentimentScore: null, sentimentAnalyzedAt: null }`
    ⟨none, none, false, none, none, none, none⟩
  else
    match api with
    | Except.error _ =>
      -- lines 476-491 (catch): same three null fields, no error marker
      ⟨none, none, false, none, none, none, none⟩
    | Except.ok parsed =>
      let n := normalizeSentimentResult parsed
      -- `normalized.sentimentConfidence` is undefined (the field is named
      -- `confidence`), and `sentimentScore` is never nullish, so
      -- `confidenceOrScore` is the normalized score (line 442).
      let confidenceOrScore := n.sentimentScore
      let nearNeutralScore := jsLt (jsAbs (jsSubQ n.sentimentScore (1/2))) (JsNum.fin (12/100))
      match lex with
      | some adj =>
        if n.sentiment = "neutral" || jsLt confidenceOrScore (JsNum.fin (45/100)) ||
            nearNeutralScore then
          ⟨some adj.sentiment, some (JsNum.fin adj.sentimentScore), true,
            some (JsNum.fin adj.confidence), some "gemini+heuristic", none, none⟩
        else
          ⟨some n.sentiment, some n.sentimentScore, true, n.confidence,
            some "gemini", none, none⟩
      | none =>
        ⟨some n.sentiment, some n.sentimentScore, true, n.confidence,
          some "gemini", none, none⟩

/-! ## Platform fetcher adapters (C4)

Each adapter's upstream axios call(s) appear as `Except JsError`-valued
parameters; the adapter body is its response mapping plus its try/catch
policy. -/

structure Tweet where
  id : String
  text : String
  authorId : Option String
deriving DecidableEq, Repr

structure TwUser where
  id : String
  name : Option String
  username : Option String
deriving DecidableEq, Repr

/-- The parsed body of the recent-search response: the optional `data`
array of tweets and the optional `includes.users` array. -/
structure TwResp where
  data : Option (List Tweet)
  usersIncludes : Option (List TwUser)
deriving DecidableEq, Repr

structure TwMapped where
  tweetId : String
  text : String
  authorId : Option String
  authorName : String
  authorUsername : String
deriving DecidableEq, Repr

/-- `getTwitterSearchResults` (twitterAPI.js lines 3-71): catch-all returns
an empty list; `if (!data?.data) return []`; otherwise tweets are merged
with the users map (`usersMap[tweet.author_id] || {}`, fields defaulting to
`""`). -/
def getTwitterSearchResults (resp : Except JsError TwResp) : List TwMapped :=
  match resp with
  | Except.error _ => []
  | Except.ok d =>
    match d.data with
    | none => []
    | some tweets =>
      tweets.map (fun tw =>
        let user := (d.usersIncludes.getD []).find? (fun u => some u.id = tw.authorId)
        ⟨tw.id, tw.text, tw.authorId,
          orElseStr (user.bind TwUser.name) "",
          orElseStr (user.bind TwUser.username) ""⟩)

structure YtSearchItem where
  videoId : String
deriving DecidableEq, Repr

structure YtStatsItem where
  id : String
  title : String
  description : String
  channelTitle : String
deriving DecidableEq, Repr

structure YtMapped where
  videoId : String
  title : String
  description : String
  channelTitle : String
  url : String
deriving DecidableEq, Repr

/-- `getYouTubeSearchResults` (youtubeAPI.js lines 3-64): the whole body,
including the second stats call, sits in one try whose catch returns `[]`;
`!data.items?.length` (missing or empty) also returns `[]`. -/
def getYouTubeSearchResults (search : Except JsError (Option (List YtSearchItem)))
    (stats : Except JsError (List YtStatsItem)) : List YtMapped :=
  match search with
  | Except.error _ => []
  | Except.ok none => []
  | Except.ok (some []) => []
  | Except.ok (some (_ :: _)) =>
    match stats with
    | Except.error _ => []
    | Except.ok items =>
      items.map (fun it =>
        ⟨it.id, it.title, it.description, it.channelTitle,
          "https://www.youtube.com/watch?v=" ++ it.id⟩)

structure MetaAcct where
  instagramBusinessId : Option String
  pageAccessToken : Option String
deriving DecidableEq, Repr

structure IgPost where
  id : String
  caption : Option String
  permalink : Option String
deriving DecidableEq, Repr

structure IgMapped where
  keyword : String
  platform : String
  contentText : String
  sourceUrl : Option String
  instagramId : String
deriving DecidableEq, Repr

/-- `fetchInstagramSearch` (instagramFetcher.js lines 4-93): a missing
MetaAccount or missing credentials returns `[]`, but the catch around
`fetchInstagramHashtagPosts` logs and then RE-THROWS the upstream error
(line 91), so the adapter's result is `Except`-valued. -/
def fetchInstagramSearch (keyword : String) (metaAccount : Option MetaAcct)
    (upstream : Except JsError (List IgPost)) : Except JsError (List IgMapped) :=
  match metaAccount with
  | none => Except.ok []
  | some acct =>
    if truthyOpt acct.instagramBusinessId && truthyOpt acct.pageAccessToken then
      match upstream with
      | Except.ok posts =>
        Except.ok (posts.map (fun p =>
          ⟨keyword, "instagram", orElseStr p.caption "", p.permalink, p.id⟩))
      | Except.error e => Except.error e
    else Except.ok []

/-! ## Search orchestrator (search.brand.controller.js)

`deriveGroupExecutions` (lines 24-78) and the entry point `runSearch`
(lines 445-571).  The platform fetcher registry is abstracted as the
oracle `oracle platform keyword`; the list of `(platform, keyword)` pairs
for which the oracle ran is returned as the call trace.  The sentiment and
persistence stages of the success response are embedded separately
(`analyzePostsSentimentG`, `saveAnalyzedPosts`); the success constructor
here carries the `groupsExecuted` and `fetched` fields the claims mention,
where `fetched = totalScraped` is the length of the accumulated
`postsToInsert`. -/

structure RawGroup where
  groupName : Option String
  keywords : Option (List String)
  includeKeywords : Option (List String)
  excludeKeywords : Option (List String)
  platforms : Option (List String)
  language : Option String
  country : Option String
  status : Option String
  paused : Option Bool
deriving DecidableEq, Repr

structure Brand where
  brandName : String
  language : Option String
  country : Option String
  includeKeywords : Option (List String)
  excludeKeywords : Option (List String)
  platforms : Option (List String)
  keywords : Option (List String)
  keywordGroups : Option (List RawGroup)
deriving DecidableEq, Repr

/-- Keys of `REALTIME_PLATFORM_FETCHERS` (lines 13-20). -/
def supportedRealtimePlatforms : List String :=
  ["youtube", "twitter", "reddit", "google", "instagram", "facebook"]

structure Execution where
  name : String
  keywords : List String
  includeKeywords : List String
  excludeKeywords : List String
  platforms : List String
  language : String
  country : String
  paused : Bool
deriving DecidableEq, Repr

/-- `normalizeGroup` (lines 31-51); the random fallback id is elided. -/
def normalizeGroup (brand : Brand) (g : RawGroup) : Execution :=
  let fallbackInclude := brand.includeKeywords.getD []
  let fallbackExclude := brand.excludeKeywords.getD []
  let fallbackPlatforms := brand.platforms.getD []
  let keywords := (g.keywords.getD []).filter (fun s => s ≠ "")
  let includeKeywords :=
    match g.includeKeywords with
    | some (k :: ks) => k :: ks
    | _ => fallbackInclude
  let excludeKeywords :=
    match g.excludeKeywords with
    | some (k :: ks) => k :: ks
    | _ => fallbackExclude
  let platforms :=
    (match g.platforms with
     | some (p :: ps) => p :: ps
     | _ => fallbackPlatforms).filter (fun p => p ∈ supportedRealtimePlatforms)
  ⟨orElseStr g.groupName "Default Group", keywords, includeKeywords,
    excludeKeywords, platforms,
    orElseStr g.language (orElseStr brand.language "en"),
    orElseStr g.country (orElseStr brand.country "IN"),
    g.status = some "paused" || g.paused = some true⟩

/-- `deriveGroupExecutions(brand)` (lines 24-78). -/
def deriveGroupExecutions (brand : Brand) : List Execution :=
  let keywordGroups := brand.keywordGroups.getD []
  if keywordGroups ≠ [] then
    (keywordGroups.map (normalizeGroup brand)).filter
      (fun g => !g.paused && g.keywords ≠ [] && g.platforms ≠ [])
  else
    let brandKeywords := (brand.keywords.getD []).filter (fun s => s ≠ "")
    let brandPlatforms :=
      (brand.platforms.getD []).filter (fun p => p ∈ supportedRealtimePlatforms)
    if brandKeywords ≠ [] && brandPlatforms ≠ [] then
      [⟨brand.brandName, brandKeywords, brand.includeKeywords.getD [],
        brand.excludeKeywords.getD [], brandPlatforms,
        orElseStr brand.language "en", orElseStr brand.country "IN", false⟩]
    else []

/-- The keyword loop for one platform (lines 478-517): a thrown fetch is
logged and skipped (`continue`), a successful fetch adds its posts to the
run's total; every iteration invokes the fetcher. -/
def fetchKeywords (oracle : String → String → Except JsError (List GPost))
    (platform : String) : List String → List (String × String) × ℕ
  | [] => ([], 0)
  | k :: ks =>
    let rest := fetchKeywords oracle platform ks
    match oracle platform k with
    | Except.error _ => ((platform, k) :: rest.1, rest.2)
    | Except.ok l => ((platform, k) :: rest.1, rest.2 + l.length)

/-- The platform loop of one execution (lines 474-518): platforms without a
registered fetcher are skipped. -/
def fetchPlatforms (oracle : String → String → Except JsError (List GPost))
    (keywords : List String) : List String → List (String × String) × ℕ
  | [] => ([], 0)
  | p :: ps =>
    let rest := fetchPlatforms oracle keywords ps
    if p ∈ supportedRealtimePlatforms then
      let here := fetchKeywords oracle p keywords
      (here.1 ++ rest.1, here.2 + rest.2)
    else rest

def fetchGroups (oracle : String → String → Except JsError (List GPost)) :
    List Execution → List (String × String) × ℕ
  | [] => ([], 0)
  | g :: gs =>
    let here := fetchPlatforms oracle g.keywords g.platforms
    let rest := fetchGroups oracle gs
    (here.1 ++ rest.1, here.2 + rest.2)

inductive RunResponse where
  | missingBrandName
  | notFound
  | noGroups
  | okR (groupsExecuted : ℕ) (fetched : ℕ)
deriving DecidableEq, Repr

/-- `runSearch` (lines 445-571) up to the response fields the claims are
about; the second component is the trace of fetcher invocations. -/
def runSearch (brandName : Option String) (lookup : Option Brand)
    (oracle : String → String → Except JsError (List GPost)) :
    RunResponse × List (String × String) :=
  if !truthyOpt brandName then (RunResponse.missingBrandName, [])
  else
    match lookup with
    | none => (RunResponse.notFound, [])
    | some brand =>
      let groupsToExecute := deriveGroupExecutions brand
      if groupsToExecute = [] then (RunResponse.noGroups, [])
      else
        let fetchOut := fetchGroups oracle groupsToExecute
        (RunResponse.okR groupsToExecute.length fetchOut.2, fetchOut.1)

/-! ## Persistence save step (C5)

The save block of `runKeywordGroupSearch` (search.brand.controller.js lines
776-819) over the sparse unique index `(sourceUrl, platform)` declared in
models/data.js line 139.  The store state is the list of index keys already
present; unordered `insertMany` attempts every document, raising one write
error with code 11000 per key conflict, and documents without a `sourceUrl`
are outside the sparse index.  A non-duplicate bulk failure (the
`structuralFailure` mode, with a per-row error oracle) takes the
`SocialPost.create` fallback loop, where a code-11000 row counts as a
duplicate and any other row error is logged and skipped. -/

structure SPost where
  sourceUrl : Option String
  platform : String
deriving DecidableEq, Repr

def keyOf (p : SPost) : Option (String × String) :=
  match p.sourceUrl with
  | some u => some (u, p.platform)
  | none => none

/-- Unordered bulk insert: final key set, `nInserted`, and the write-error
codes. -/
def insertManyUnordered : List (String × String) → List SPost →
    List (String × String) × ℕ × List ℕ
  | db, [] => (db, 0, [])
  | db, p :: ps =>
    match keyOf p with
    | none =>
      let rest := insertManyUnordered db ps
      (rest.1, rest.2.1 + 1, rest.2.2)
    | some k =>
      if k ∈ db then
        let rest := insertManyUnordered db ps
        (rest.1, rest.2.1, 11000 :: rest.2.2)
      else
        let rest := insertManyUnordered (k :: db) ps
        (rest.1, rest.2.1 + 1, rest.2.2)

structure SaveReport where
  saved : ℕ
  duplicates : ℕ
deriving DecidableEq, Repr

/-- The `SocialPost.create` fallback loop (lines 804-816).  `rowFails i`
models a non-duplicate error thrown for row `i` (such rows are only
logged). -/
def perRowFallback (rowFails : ℕ → Bool) : List (String × String) → List SPost → ℕ →
    SaveReport × List (String × String)
  | db, [], _ => (⟨0, 0⟩, db)
  | db, p :: ps, i =>
    match keyOf p with
    | some k =>
      if k ∈ db then
        let rest := perRowFallback rowFails db ps (i + 1)
        (⟨rest.1.saved, rest.1.duplicates + 1⟩, rest.2)
      else if rowFails i then
        let rest := perRowFallback rowFails db ps (i + 1)
        (rest.1, rest.2)
      else
        let rest := perRowFallback rowFails (k :: db) ps (i + 1)
        (⟨rest.1.saved + 1, rest.1.duplicates⟩, rest.2)
    | none =>
      if rowFails i then
        let rest := perRowFallback rowFails db ps (i + 1)
        (rest.1, rest.2)
      else
        let rest := perRowFallback rowFails db ps (i + 1)
        (⟨rest.1.saved + 1, rest.1.duplicates⟩, rest.2)

inductive BulkMode where
  | normal
  | structuralFailure (rowFails : ℕ → Bool)

/-- The save block (lines 776-819).  On the bulk path: no write errors
means `savedCount = result.insertedCount`; write errors raise a
`MongoBulkWriteError` handled by the code-11000 branch, which takes
`savedCount` from `nInserted` and counts the code-11000 write errors as
duplicates.  A structural bulk failure goes to the per-row fallback. -/
def saveAnalyzedPosts (db : List (String × String)) (posts : List SPost)
    (mode : BulkMode) : SaveReport × List (String × String) :=
  if posts = [] then (⟨0, 0⟩, db)
  else
    match mode with
    | BulkMode.normal =>
      let out := insertManyUnordered db posts
      if out.2.2 = [] then (⟨out.2.1, 0⟩, out.1)
      else (⟨out.2.1, (out.2.2.filter (fun c => c = 11000)).length⟩, out.1)
    | BulkMode.structuralFailure rowFails => perRowFallback rowFails db posts 0

/-! ## Manual sentiment correction and automated re-analysis (C9)

`applySentimentUpdate` / `updateManualSentiment` (sentiment controller,
lines 282-439) over an explicit post store and change-log list, and the
re-analysis batch job (scripts/reanalyze_sentiment.js lines 15-91).  Posts
are keyed by a numeric id standing for the Mongo `_id`. -/

structure MPost where
  id : ℕ
  sentiment : Option String
  sentimentScore : Option ℚ
  sentimentSource : Option String
  sentimentIsManual : Option Bool
deriving DecidableEq, Repr

structure SentimentPayload where
  sentiment : Option String
  sentimentScore : Option ℚ
  sentimentIsManual : Option Bool
deriving DecidableEq, Repr

/-- `applySentimentUpdate(postId, payload, options)` (lines 282-318): the
`$set` always writes `sentiment` (`payload.sentiment || null`) and
`sentimentScore`; `sentimentSource` only when the option is truthy;
`sentimentIsManual` is forced `true` by `markManual`, else copied from the
payload when boolean. -/
def applySentimentUpdate (store : List MPost) (postId : ℕ)
    (payload : SentimentPayload) (sentimentSource : Option String)
    (markManual : Bool) : List MPost :=
  store.map (fun p =>
    if p.id = postId then
      { p with
        sentiment := if truthyOpt payload.sentiment then payload.sentiment else none,
        sentimentScore := payload.sentimentScore,
        sentimentSource :=
          if truthyOpt sentimentSource then sentimentSource else p.sentimentSource,
        sentimentIsManual :=
          if markManual then some true
          else match payload.sentimentIsManual with
               | some b => some b
               | none => p.sentimentIsManual }
    else p)

structure ChangeLogEntry where
  post : ℕ
  oldSentiment : Option String
  newSentiment : String
  user : Option ℕ
deriving DecidableEq, Repr

inductive ManualResponse where
  | badRequest (msg : String)
  | okM (postId : ℕ) (oldSentiment : Option String) (sentiment : String)
deriving DecidableEq, Repr

/-- `String.prototype.toLowerCase()` restricted to ASCII letters (the
sentiment labels compared here are ASCII). -/
def jsToLowerChar (c : Char) : Char :=
  if 'A' ≤ c ∧ c ≤ 'Z' then Char.ofNat (c.toNat + 32) else c

def jsToLower (s : String) : String := String.mk (s.data.map jsToLowerChar)

/-- `updateManualSentiment` (lines 375-439): validates the label, reads the
existing sentiment, applies the update with `sentimentSource: "manual"` and
`markManual: true`, and appends a change-log entry recording previous
value, new value and acting user. -/
def updateManualSentiment (store : List MPost) (logs : List ChangeLogEntry)
    (postId : Option ℕ) (sentimentIn : Option String) (user : Option ℕ) :
    ManualResponse × List MPost × List ChangeLogEntry :=
  match postId with
  | none => (ManualResponse.badRequest "postId is required", store, logs)
  | some pid =>
    let lowered := jsToLower (sentimentIn.getD "")
    if !truthyOpt sentimentIn || lowered ∉ sentimentLabels then
      (ManualResponse.badRequest "sentiment must be one of: positive, neutral, negative",
        store, logs)
    else
      let existing := store.find? (fun p => p.id = pid)
      let store2 :=
        applySentimentUpdate store pid ⟨some lowered, none, none⟩ (some "manual") true
      let entry : ChangeLogEntry := ⟨pid, existing.bind MPost.sentiment, lowered, user⟩
      (ManualResponse.okM pid (existing.bind MPost.sentiment) lowered,
        store2, logs ++ [entry])

/-- The per-post update of one re-analysis pass
(reanalyze_sentiment.js lines 22-28 and 56-87): the job's query selects a
post when its sentiment is `'neutral'`, null or missing — the
`sentimentIsManual` flag is not part of the query — and overwrites the
sentiment when the new result is truthy and non-neutral. -/
def reanalyzeOne (newSent : ℕ → Option SvcResult) (p : MPost) : MPost :=
  if p.sentiment = some "neutral" ∨ p.sentiment = none then
    match newSent p.id with
    | some r =>
      if truthyOpt r.sentiment && r.sentiment ≠ some "neutral" then
        { p with sentiment := r.sentiment, sentimentScore := r.sentimentScore,
                 sentimentSource := some "vader_reanalysis" }
      else { p with sentimentSource := some "vader_reanalysis" }
    | none => { p with sentimentSource := some "vader_reanalysis" }
  else p

/-- One batch pass of `reanalyzeSentiment` over the store (the BATCH_SIZE
pagination applies the same per-post logic batch by batch). -/
def reanalyzeStep (store : List MPost) (newSent : ℕ → Option SvcResult) :
    List MPost :=
  store.map (reanalyzeOne newSent)

/-! ## Concrete inputs used by the claim theorems and witnesses -/

def svcEmptyOk : List GPost → Except JsError (List SvcResult) := fun _ => Except.ok []

def noTextPost : GPost := ⟨some "twitter", some "   ", none, none, none, none, none⟩

def alwaysConnRefused : ℕ → AxiosOutcome :=
  fun _ => AxiosOutcome.requestError "ECONNREFUSED" "connect ECONNREFUSED 127.0.0.1:8000"

def rawConnRefused : JsError :=
  ⟨"Error", some "ECONNREFUSED", none, "connect ECONNREFUSED 127.0.0.1:8000"⟩

def igAcct : MetaAcct := ⟨some "ig-1", some "token-1"⟩

def igErr : JsError := ⟨"Error", some "ERR_BAD_REQUEST", some 400, "Invalid OAuth access token"⟩

def c10w : ParsedResult := ⟨JsVal.str "bogus", JsVal.num (JsNum.fin 7), JsVal.num JsNum.negInf⟩

/-- The per-result invariant over the service results of one call: any
truthy sentiment string is one of the three labels and comes with a
score.  (The Python scoring service's response schema only emits these
labels.) -/
def SvcWellFormed (r : SvcResult) : Prop :=
  (∀ s, r.sentiment = some s → s ≠ "" → s ∈ sentimentLabels) ∧
  (truthyOpt r.sentiment = true → r.sentimentScore ≠ none)

/-- The outcome invariant for one batch result: a labelled sentiment with a
score and no error marker, or a null sentiment with the error marker set. -/
def ItemInvariant (item : BatchItem) : Prop :=
  (∃ s, item.sentiment = some s ∧ s ∈ sentimentLabels ∧
    item.sentimentScore ≠ none ∧ item.sentimentError = none) ∨
  (item.sentiment = none ∧ ∃ e, item.sentimentError = some e)

def noTextGemPost : GPost := GPost.empty

def svcGood : List GPost → Except JsError (List SvcResult) :=
  fun b => Except.ok (b.map (fun _ =>
    ⟨some "positive", some (9/10), some (8/10), some "llm", none⟩))

def c5posts : List SPost := [⟨some "https://t.co/1", "twitter"⟩, ⟨some "https://y.be/2", "youtube"⟩]

def pausedGroup : RawGroup :=
  ⟨some "Group A", some ["acme"], none, none, some ["twitter"], none, none,
    some "paused", some true⟩

def brandPaused : Brand :=
  ⟨"Acme", some "en", some "IN", none, none, some ["twitter"], some ["acme"],
    some [pausedGroup]⟩

def oracleNone : String → String → Except JsError (List GPost) :=
  fun _ _ => Except.ok []

def manualNeutralPost : MPost := ⟨1, some "neutral", some (1/2), some "manual", some true⟩

def reanalysisOracle : ℕ → Option SvcResult :=
  fun _ => some ⟨some "positive", some (9/10), some (8/10), some "llm", none⟩

def c9store : List MPost := [⟨1, some "negative", some (3/10), some "llm", none⟩]

/-! ## Lemmas about the gateway batch machinery -/

theorem chunksGo_flatten (n : ℕ) :
    ∀ (l acc : List α), (chunksGo n l acc).flatten = acc.reverse ++ l := by
  intro l
  induction l with
  | nil =>
    intro acc
    cases acc with
    | nil => simp [chunksGo]
    | cons a as => simp [chunksGo]
  | cons x xs ih =>
    intro acc
    by_cases h : (x :: acc).length = n
    · simp only [chunksGo, if_pos h, List.flatten_cons, ih []]
      simp
    · simp only [chunksGo, if_neg h, ih (x :: acc)]
      simp

theorem chunks_flatten (n : ℕ) (l : List α) : (chunks n l).flatten = l := by
  simpa [chunks] using chunksGo_flatten n l []

theorem chunkOkAux_map_post (rs : List SvcResult) :
    ∀ (c : List GPost) (j : ℕ), (chunkOkAux rs c j).1.map BatchItem.post = c := by
  intro c
  induction c with
  | nil => intro j; simp [chunkOkAux]
  | cons p ps ih =>
    intro j
    simp only [chunkOkAux]
    cases hr : rs.get? j with
    | none => simp [failItem, ih]
    | some r =>
      by_cases h : truthyOpt r.sentiment = true
      · simp [h, successItem, ih]
      · simp [h, failItem, ih]

theorem chunkOkAux_counts (rs : List SvcResult) :
    ∀ (c : List GPost) (j : ℕ),
      (chunkOkAux rs c j).2.1 + (chunkOkAux rs c j).2.2.1 = c.length := by
  intro c
  induction c with
  | nil => intro j; simp [chunkOkAux]
  | cons p ps ih =>
    intro j
    have hih := ih (j + 1)
    simp only [chunkOkAux]
    cases hr : rs.get? j with
    | none =>
      dsimp only [List.length_cons]
      omega
    | some r =>
      dsimp only
      by_cases h : truthyOpt r.sentiment = true
      · rw [if_pos h]
        dsimp only [List.length_cons]
        omega
      · rw [if_neg h]
        dsimp only [List.length_cons]
        omega

theorem processChunk_map_post (svc : List GPost → Except JsError (List SvcResult))
    (c : List GPost) : (processChunk svc c).1.map BatchItem.post = c := by
  unfold processChunk
  cases svc c with
  | ok rs => exact chunkOkAux_map_post rs c 0
  | error e =>
    dsimp only
    rw [List.map_map]
    have hf : (BatchItem.post ∘ fun p => failItem p (errCodeOf e)) = id := by
      funext p
      rfl
    rw [hf, List.map_id]

theorem processChunk_counts (svc : List GPost → Except JsError (List SvcResult))
    (c : List GPost) : (processChunk svc c).2.1 + (processChunk svc c).2.2.1 = c.length := by
  unfold processChunk
  cases svc c with
  | ok rs => exact chunkOkAux_counts rs c 0
  | error e => simp

theorem runChunks_items_map (svc : List GPost → Except JsError (List SvcResult)) :
    ∀ (cs : List (List GPost)),
      (runChunks svc cs).items.map BatchItem.post = cs.flatten := by
  intro cs
  induction cs with
  | nil => simp [runChunks]
  | cons c cs ih =>
    simp only [runChunks, List.flatten_cons, List.map_append, ih, processChunk_map_post]

theorem runChunks_counts (svc : List GPost → Except JsError (List SvcResult)) :
    ∀ (cs : List (List GPost)),
      (runChunks svc cs).succ + (runChunks svc cs).fail = cs.flatten.length := by
  intro cs
  induction cs with
  | nil => simp [runChunks]
  | cons c cs ih =>
    simp only [runChunks, List.flatten_cons, List.length_append]
    have hc := processChunk_counts svc c
    omega

/-- C1: for every input array, the Gateway's batch entry point returns one
result per input post and its counters satisfy
`successful + failed = total = posts.length`, whatever the remote service
does per sub-batch (success, short result arrays, or a throw). -/
theorem c1_gateway_batch_counts (posts : List GPost)
    (svc : List GPost → Except JsError (List SvcResult)) (concurrency : ℕ) :
    (analyzePostsSentimentG posts svc concurrency).results.length = posts.length ∧
    (analyzePostsSentimentG posts svc concurrency).successful +
        (analyzePostsSentimentG posts svc concurrency).failed =
      (analyzePostsSentimentG posts svc concurrency).total ∧
    (analyzePostsSentimentG posts svc concurrency).total = posts.length := by
  unfold analyzePostsSentimentG
  by_cases h : posts = []
  · subst h
    simp
  · rw [if_neg h]
    refine ⟨?_, ?_, rfl⟩
    · have hm := congrArg List.length
        (runChunks_items_map svc (chunks (batchSizeOf concurrency) posts))
      rw [List.length_map, chunks_flatten] at hm
      exact hm
    · have hc := runChunks_counts svc (chunks (batchSizeOf concurrency) posts)
      rw [chunks_flatten] at hc
      exact hc

/-- C8: the batch result list is the input list in order: projecting each
result onto the post it was built from (the `...post` spread) gives back
exactly the submitted list, across sub-batch boundaries, so index-based
correlation `results[i] ↔ posts[i]` is sound for the orchestrator's
index-based merge. -/
theorem c8_results_order_preserved (posts : List GPost)
    (svc : List GPost → Except JsError (List SvcResult)) (concurrency : ℕ) :
    (analyzePostsSentimentG posts svc concurrency).results.map BatchItem.post = posts ∧
    ∀ i : ℕ, ((analyzePostsSentimentG posts svc concurrency).results[i]?).map
        BatchItem.post = posts[i]? := by
  have hmap : (analyzePostsSentimentG posts svc concurrency).results.map
      BatchItem.post = posts := by
    unfold analyzePostsSentimentG
    by_cases h : posts = []
    · subst h
      simp
    · rw [if_neg h]
      have hm := runChunks_items_map svc (chunks (batchSizeOf concurrency) posts)
      rw [chunks_flatten] at hm
      exact hm
  refine ⟨hmap, fun i => ?_⟩
  conv_rhs => rw [← hmap]
  rw [List.getElem?_map]

/-! ## C2: the NO_TEXT short-circuit -/

/-- C2 counterexample: a post with no extractable text, submitted through
the batch entry point, IS sent to the remote service (`calls` records its
sub-batch) and its outcome carries `NO_RESULT`, not `NO_TEXT` — the batch
path has no per-post text check, refuting the claim for batches. -/
theorem c2_batch_no_text_counterexample :
    extractText GPost.empty = "" ∧
    (analyzePostsSentimentG [GPost.empty] svcEmptyOk 10).calls = [[GPost.empty]] ∧
    (analyzePostsSentimentG [GPost.empty] svcEmptyOk 10).results.map
        BatchItem.sentimentError = [some "NO_RESULT"] := by
  decide

/-- C2 (amended): the NO_TEXT short-circuit holds on the single-post path
only: whenever the extractable text is empty (in particular shorter than 3
characters after whitespace normalization), `analyzePostSentiment` returns
the NO_TEXT outcome with null sentiment and never invokes the remote
service; on the batch path such a post is sent to the remote endpoint with
its sub-batch. -/
theorem c2_single_no_text_short_circuit (post : GPost)
    (call : Except JsError (List SvcResult)) (h : extractText post = "") :
    analyzePostSentimentG post call =
      (⟨none, none, none, false, "none", some "NO_TEXT"⟩, false) := by
  simp [analyzePostSentimentG, h]

theorem c2_single_no_text_short_circuit_witness :
    extractText noTextPost = "" ∧
    analyzePostSentimentG noTextPost (Except.ok []) =
      (⟨none, none, none, false, "none", some "NO_TEXT"⟩, false) :=
  ⟨by decide, c2_single_no_text_short_circuit noTextPost (Except.ok []) (by decide)⟩

/-! ## C3: retry policy around the remote call -/

/-- C3 (code bug evaluation): with the service refusing every connection,
the composed call `retryWithBackoff(() => callPythonService(posts))` makes
exactly ONE attempt and throws — `callPythonService` re-wraps the
transport failure as an `APIError` whose `code` is `API_ERROR` and which
has no `response`, so `retryWithBackoff` classifies it as non-network and
never retries.  The last conjunct shows `retryWithBackoff` itself would
have retried the raw `ECONNREFUSED` error to exhaustion (3 attempts with
`maxRetries = 2`), which is the documented intent. -/
theorem c3_transport_error_not_retried :
    (retryWithBackoff (fun k => callPythonService (alwaysConnRefused k)) 2).snd = 1 ∧
    (retryWithBackoff (fun k => callPythonService (alwaysConnRefused k)) 2).fst =
      Except.error (apiError "Python service is not responding") ∧
    isNetworkError (apiError "Python service is not responding") = false ∧
    (retryWithBackoff (fun _ : ℕ =>
      (Except.error rawConnRefused : Except JsError (List SvcResult))) 2).snd = 3 :=
  ⟨rfl, rfl, rfl, rfl⟩

/-! ## C4: fetcher adapters on upstream failure -/

/-- C4 counterexample: the Instagram adapter does NOT return an empty
sequence on an upstream API failure — with a configured Meta account it
re-throws the error from the hashtag fetch. -/
theorem c4_instagram_throws_counterexample :
    fetchInstagramSearch "viratkohli" (some igAcct) (Except.error igErr) =
      Except.error igErr ∧
    ∀ l : List IgMapped,
      fetchInstagramSearch "viratkohli" (some igAcct) (Except.error igErr) ≠
        Except.ok l := by
  have h : fetchInstagramSearch "viratkohli" (some igAcct) (Except.error igErr) =
      Except.error igErr := by rfl
  refine ⟨h, fun l hl => ?_⟩
  rw [h] at hl
  exact Except.noConfusion hl

/-- C4 (amended): the Twitter and YouTube adapters return an empty sequence
on any upstream failure (for YouTube including a failure of the second,
stats-enrichment call), and the Instagram adapter returns an empty sequence
when the Meta account or its credentials are missing — but it re-throws an
upstream error of the hashtag fetch itself. -/
theorem c4_fetchers_empty_on_upstream_error :
    (∀ e : JsError, getTwitterSearchResults (Except.error e) = []) ∧
    (∀ (e : JsError) (stats : Except JsError (List YtStatsItem)),
      getYouTubeSearchResults (Except.error e) stats = []) ∧
    (∀ (search : Except JsError (Option (List YtSearchItem))) (e : JsError),
      getYouTubeSearchResults search (Except.error e) = []) ∧
    (∀ (k : String) (u : Except JsError (List IgPost)),
      fetchInstagramSearch k none u = Except.ok []) ∧
    (∀ (k : String) (u : Except JsError (List IgPost)),
      fetchInstagramSearch k (some ⟨none, none⟩) u = Except.ok []) := by
  refine ⟨fun e => rfl, fun e stats => rfl, ?_, fun k u => rfl, fun k u => rfl⟩
  intro search e
  cases search with
  | error e2 => rfl
  | ok o =>
    cases o with
    | none => rfl
    | some items =>
      cases items with
      | nil => rfl
      | cons a as => rfl

/-! ## C10: `normalizeSentimentResult` bounds -/

/-- C10 counterexample: `NaN` passes the `typeof x === "number"` test and
survives `Math.max(0, Math.min(1, x))` as `NaN`, so the returned
`sentimentScore` is not in `[0, 1]`. -/
theorem c10_nan_score_counterexample :
    normalizeSentimentResult ⟨JsVal.str "positive", JsVal.num JsNum.nan, JsVal.undef⟩ =
      ⟨"positive", JsNum.nan, none⟩ ∧
    jsInUnit JsNum.nan = false := by
  decide

theorem jsInUnit_clamp (n : JsNum) (h : n ≠ JsNum.nan) :
    jsInUnit (jsClamp01 n) = true := by
  cases n with
  | nan => exact absurd rfl h
  | posInf => decide
  | negInf => decide
  | fin q =>
    have h1 : (0:ℚ) ≤ max 0 (min 1 q) := le_max_left 0 _
    have h2 : max 0 (min 1 q) ≤ 1 := max_le (by norm_num) (min_le_left 1 q)
    simp [jsClamp01, jsMin, jsMax, jsInUnit, h1, h2]

/-- C10 (amended): for every input whose `sentimentScore` and `confidence`
fields are not the number `NaN`, the result has a sentiment in
{positive, neutral, negative}, a `sentimentScore` in `[0, 1]` (clamping
numbers, including the infinities, and substituting the per-label default
for non-numbers), and a confidence that is either null or in `[0, 1]`; a
`NaN` input propagates as `NaN` (see the counterexample). -/
theorem c10_normalize_bounds (parsed : ParsedResult)
    (hs : parsed.sentimentScore ≠ JsVal.num JsNum.nan)
    (hc : parsed.confidence ≠ JsVal.num JsNum.nan) :
    (normalizeSentimentResult parsed).sentiment ∈ sentimentLabels ∧
    jsInUnit (normalizeSentimentResult parsed).sentimentScore = true ∧
    ((normalizeSentimentResult parsed).confidence = none ∨
      ∃ c, (normalizeSentimentResult parsed).confidence = some c ∧
        jsInUnit c = true) := by
  obtain ⟨sv, sc, cf⟩ := parsed
  have hneutral : "neutral" ∈ sentimentLabels := by decide
  have hlab : (normalizeSentimentResult ⟨sv, sc, cf⟩).sentiment ∈ sentimentLabels := by
    cases sv with
    | str s =>
      by_cases hmem : s ∈ sentimentLabels
      · have hval : (normalizeSentimentResult ⟨JsVal.str s, sc, cf⟩).sentiment = s := by
          simp [normalizeSentimentResult, hmem]
        rw [hval]
        exact hmem
      · have hval : (normalizeSentimentResult ⟨JsVal.str s, sc, cf⟩).sentiment = "neutral" := by
          simp [normalizeSentimentResult, hmem]
        rw [hval]
        exact hneutral
    | undef => exact hneutral
    | nullv => exact hneutral
    | num n => exact hneutral
    | boolean b => exact hneutral
  refine ⟨hlab, ?_, ?_⟩
  · have hdef : ∀ s : String, s ∈ sentimentLabels →
        jsInUnit (JsNum.fin (defaultScore s)) = true := by
      intro s hmem
      simp only [sentimentLabels, List.mem_cons, List.mem_singleton,
        List.not_mem_nil, or_false] at hmem
      rcases hmem with rfl | rfl | rfl
      · rw [show defaultScore "positive" = 72/100 from rfl]
        norm_num [jsInUnit]
      · rw [show defaultScore "neutral" = 1/2 from rfl]
        norm_num [jsInUnit]
      · rw [show defaultScore "negative" = 28/100 from rfl]
        norm_num [jsInUnit]
    cases sc with
    | num n =>
      have hn : n ≠ JsNum.nan := by
        intro hEq
        exact hs (by rw [hEq])
      simpa [normalizeSentimentResult] using jsInUnit_clamp n hn
    | undef => simpa [normalizeSentimentResult] using hdef _ hlab
    | nullv => simpa [normalizeSentimentResult] using hdef _ hlab
    | str s2 => simpa [normalizeSentimentResult] using hdef _ hlab
    | boolean b => simpa [normalizeSentimentResult] using hdef _ hlab
  · cases cf with
    | num n =>
      have hn : n ≠ JsNum.nan := by
        intro hEq
        exact hc (by rw [hEq])
      right
      exact ⟨jsClamp01 n, by simp [normalizeSentimentResult], jsInUnit_clamp n hn⟩
    | undef => left; simp [normalizeSentimentResult]
    | nullv => left; simp [normalizeSentimentResult]
    | str s2 => left; simp [normalizeSentimentResult]
    | boolean b => left; simp [normalizeSentimentResult]

theorem c10_normalize_bounds_witness :
    c10w.sentimentScore ≠ JsVal.num JsNum.nan ∧
    c10w.confidence ≠ JsVal.num JsNum.nan ∧
    ((normalizeSentimentResult c10w).sentiment ∈ sentimentLabels ∧
      jsInUnit (normalizeSentimentResult c10w).sentimentScore = true ∧
      ((normalizeSentimentResult c10w).confidence = none ∨
        ∃ c, (normalizeSentimentResult c10w).confidence = some c ∧
          jsInUnit c = true)) :=
  ⟨by decide, by decide, c10_normalize_bounds c10w (by decide) (by decide)⟩

/-! ## C7: the SentimentOutcome invariant -/

theorem chunkOkAux_invariant (rs : List SvcResult)
    (hrs : ∀ r ∈ rs, SvcWellFormed r) :
    ∀ (c : List GPost) (j : ℕ), ∀ item ∈ (chunkOkAux rs c j).1, ItemInvariant item := by
  intro c
  induction c with
  | nil =>
    intro j item h
    simp [chunkOkAux] at h
  | cons p ps ih =>
    intro j item h
    simp only [chunkOkAux] at h
    cases hgr : rs.get? j with
    | none =>
      rw [hgr] at h
      simp only [List.mem_cons] at h
      rcases h with rfl | h
      · exact Or.inr ⟨rfl, svcErrCode none, rfl⟩
      · exact ih (j + 1) item h
    | some r =>
      rw [hgr] at h
      dsimp only at h
      have hwf := hrs r (List.get?_mem hgr)
      by_cases htr : truthyOpt r.sentiment = true
      · rw [if_pos htr] at h
        simp only [List.mem_cons] at h
        rcases h with rfl | h
        · obtain ⟨s, hsent⟩ : ∃ s, r.sentiment = some s ∧ s ≠ "" := by
            cases hsval : r.sentiment with
            | none => rw [hsval] at htr; simp [truthyOpt] at htr
            | some s =>
              refine ⟨s, rfl, ?_⟩
              rw [hsval] at htr
              simpa [truthyOpt] using htr
          exact Or.inl ⟨s, hsent.1, hwf.1 s hsent.1 hsent.2, hwf.2 htr, rfl⟩
        · exact ih (j + 1) item h
      · rw [if_neg htr] at h
        simp only [List.mem_cons] at h
        rcases h with rfl | h
        · exact Or.inr ⟨rfl, svcErrCode (some r), rfl⟩
        · exact ih (j + 1) item h

theorem processChunk_invariant (svc : List GPost → Except JsError (List SvcResult))
    (hsvc : ∀ b rs, svc b = Except.ok rs → ∀ r ∈ rs, SvcWellFormed r)
    (c : List GPost) : ∀ item ∈ (processChunk svc c).1, ItemInvariant item := by
  intro item h
  unfold processChunk at h
  cases hb : svc c with
  | ok rs =>
    rw [hb] at h
    exact chunkOkAux_invariant rs (hsvc c rs hb) c 0 item h
  | error e =>
    rw [hb] at h
    simp only [List.mem_map] at h
    obtain ⟨p, _, rfl⟩ := h
    exact Or.inr ⟨rfl, errCodeOf e, rfl⟩

theorem runChunks_invariant (svc : List GPost → Except JsError (List SvcResult))
    (hsvc : ∀ b rs, svc b = Except.ok rs → ∀ r ∈ rs, SvcWellFormed r) :
    ∀ (cs : List (List GPost)), ∀ item ∈ (runChunks svc cs).items, ItemInvariant item := by
  intro cs
  induction cs with
  | nil =>
    intro item h
    simp [runChunks] at h
  | cons c cs ih =>
    intro item h
    simp only [runChunks, List.mem_append] at h
    rcases h with h | h
    · exact processChunk_invariant svc hsvc c item h
    · exact ih item h

/-- C7 counterexample: the Gemini-based `analyzePostSentiment` violates the
invariant — for a post with no extractable text (and likewise on its catch
path) it returns `sentiment: null` with NO error marker of any kind. -/
theorem c7_gemini_null_without_error_counterexample :
    analyzePostSentimentGem noTextGemPost (Except.error ()) none =
      ⟨none, none, false, none, none, none, none⟩ ∧
    (analyzePostSentimentGem noTextGemPost (Except.error ()) none).sentiment = none ∧
    (analyzePostSentimentGem noTextGemPost (Except.error ()) none).error = none ∧
    (analyzePostSentimentGem noTextGemPost (Except.error ()) none).sentimentError = none := by
  decide

/-- C7 (amended): the SentimentOutcome invariant holds for the keras
gateway: on the batch path every produced result has either a labelled
sentiment (with its score, whenever the service emits only well-formed
results) and a null `sentimentError`, or a null sentiment together with a
set `sentimentError`; on the gateway's single-post path every outcome has
either a sentiment or the `error` field set.  The Gemini-based service's
single-post path does NOT satisfy the invariant (see the counterexample):
its no-text and error outcomes carry a null sentiment and no error
marker. -/
theorem c7_gateway_outcome_invariant (posts : List GPost)
    (svc : List GPost → Except JsError (List SvcResult)) (concurrency : ℕ)
    (post : GPost) (call : Except JsError (List SvcResult))
    (hsvc : ∀ b rs, svc b = Except.ok rs → ∀ r ∈ rs, SvcWellFormed r)
    (hcall : ∀ rs, call = Except.ok rs → ∀ r ∈ rs, SvcWellFormed r) :
    (∀ item ∈ (analyzePostsSentimentG posts svc concurrency).results,
      ItemInvariant item) ∧
    ((∃ s, (analyzePostSentimentG post call).1.sentiment = some s ∧
        s ∈ sentimentLabels ∧ (analyzePostSentimentG post call).1.error = none) ∨
      ((analyzePostSentimentG post call).1.sentiment = none ∧
        ∃ e, (analyzePostSentimentG post call).1.error = some e)) := by
  constructor
  · intro item h
    unfold analyzePostsSentimentG at h
    by_cases hp : posts = []
    · rw [if_pos hp] at h
      simp at h
    · rw [if_neg hp] at h
      exact runChunks_invariant svc hsvc (chunks (batchSizeOf concurrency) posts) item h
  · unfold analyzePostSentimentG
    by_cases ht : extractText post = ""
    · rw [if_pos ht]
      exact Or.inr ⟨rfl, "NO_TEXT", rfl⟩
    · rw [if_neg ht]
      cases hcl : call with
      | error e => exact Or.inr ⟨rfl, orElseStr e.code "UNKNOWN_ERROR", rfl⟩
      | ok rs =>
        cases rs with
        | nil => exact Or.inr ⟨rfl, "API_ERROR", rfl⟩
        | cons r rest =>
          have hwf := hcall (r :: rest) hcl r (List.mem_cons_self r rest)
          refine Or.inl ⟨orElseStr r.sentiment "neutral", rfl, ?_, rfl⟩
          cases hsval : r.sentiment with
          | none => simp [orElseStr, hsval]; decide
          | some s =>
            by_cases hse : s = ""
            · simp [orElseStr, hsval, hse]
              decide
            · have hmem := hwf.1 s hsval hse
              simpa [orElseStr, hsval, hse] using hmem

theorem c7_gateway_outcome_invariant_witness :
    (∀ b rs, svcGood b = Except.ok rs → ∀ r ∈ rs, SvcWellFormed r) ∧
    ((∀ item ∈ (analyzePostsSentimentG [noTextPost] svcGood 10).results,
        ItemInvariant item) ∧
      ((∃ s, (analyzePostSentimentG noTextPost (svcGood [noTextPost])).1.sentiment = some s ∧
          s ∈ sentimentLabels ∧
          (analyzePostSentimentG noTextPost (svcGood [noTextPost])).1.error = none) ∨
        ((analyzePostSentimentG noTextPost (svcGood [noTextPost])).1.sentiment = none ∧
          ∃ e, (analyzePostSentimentG noTextPost (svcGood [noTextPost])).1.error = some e))) := by
  have hsvc : ∀ b rs, svcGood b = Except.ok rs → ∀ r ∈ rs, SvcWellFormed r := by
    intro b rs h r hr
    simp only [svcGood, Except.ok.injEq] at h
    subst h
    simp only [List.mem_map] at hr
    obtain ⟨p, _, rfl⟩ := hr
    constructor
    · intro s hs hne
      have : s = "positive" := by
        have := hs.symm
        simpa using this
      rw [this]
      decide
    · intro _
      simp
  have hcall : ∀ rs, svcGood [noTextPost] = Except.ok rs → ∀ r ∈ rs, SvcWellFormed r := by
    intro rs h
    exact hsvc [noTextPost] rs h
  exact ⟨hsvc,
    c7_gateway_outcome_invariant [noTextPost] svcGood 10 noTextPost
      (svcGood [noTextPost]) hsvc hcall⟩

/-! ## C5: persistence counts and idempotence -/

theorem insertMany_counts (db : List (String × String)) (ps : List SPost) :
    (insertManyUnordered db ps).2.1 + (insertManyUnordered db ps).2.2.length =
      ps.length := by
  induction ps generalizing db with
  | nil => simp [insertManyUnordered]
  | cons p ps ih =>
    simp only [insertManyUnordered]
    cases hk : keyOf p with
    | none =>
      dsimp only [List.length_cons]
      have := ih db
      omega
    | some k =>
      dsimp only
      by_cases hmem : k ∈ db
      · rw [if_pos hmem]
        dsimp only [List.length_cons]
        have := ih db
        omega
      · rw [if_neg hmem]
        dsimp only [List.length_cons]
        have := ih (k :: db)
        omega

theorem insertMany_db_mono (db : List (String × String)) (ps : List SPost)
    (k : String × String) (h : k ∈ db) : k ∈ (insertManyUnordered db ps).1 := by
  induction ps generalizing db with
  | nil => simpa [insertManyUnordered] using h
  | cons p ps ih =>
    simp only [insertManyUnordered]
    cases hk : keyOf p with
    | none => exact ih db h
    | some k2 =>
      dsimp only
      by_cases hmem : k2 ∈ db
      · rw [if_pos hmem]
        exact ih db h
      · rw [if_neg hmem]
        exact ih (k2 :: db) (List.mem_cons_of_mem k2 h)

theorem insertMany_keys_present (db : List (String × String)) (ps : List SPost) :
    ∀ p ∈ ps, ∀ k, keyOf p = some k → k ∈ (insertManyUnordered db ps).1 := by
  induction ps generalizing db with
  | nil => intro p hp; simp at hp
  | cons q ps ih =>
    intro p hp k hk
    simp only [List.mem_cons] at hp
    simp only [insertManyUnordered]
    cases hq : keyOf q with
    | none =>
      dsimp only
      rcases hp with rfl | hp
      · rw [hq] at hk
        exact Option.noConfusion hk
      · exact ih db p hp k hk
    | some k2 =>
      dsimp only
      by_cases hmem : k2 ∈ db
      · rw [if_pos hmem]
        rcases hp with rfl | hp
        · rw [hq] at hk
          have hkk : k2 = k := Option.some.inj hk
          rw [← hkk]
          exact insertMany_db_mono db ps k2 hmem
        · exact ih db p hp k hk
      · rw [if_neg hmem]
        rcases hp with rfl | hp
        · rw [hq] at hk
          have hkk : k2 = k := Option.some.inj hk
          rw [← hkk]
          exact insertMany_db_mono (k2 :: db) ps k2 (List.mem_cons_self k2 db)
        · exact ih (k2 :: db) p hp k hk

theorem insertMany_all_dup (db : List (String × String)) (ps : List SPost)
    (h : ∀ p ∈ ps, ∃ k, keyOf p = some k ∧ k ∈ db) :
    insertManyUnordered db ps = (db, 0, List.replicate ps.length 11000) := by
  induction ps with
  | nil => simp [insertManyUnordered]
  | cons p ps ih =>
    obtain ⟨k, hk, hmem⟩ := h p (List.mem_cons_self p ps)
    have hrest : insertManyUnordered db ps = (db, 0, List.replicate ps.length 11000) :=
      ih (fun q hq => h q (List.mem_cons_of_mem p hq))
    simp only [insertManyUnordered, hk, if_pos hmem, hrest, List.length_cons,
      List.replicate_succ]

theorem perRow_bound (rowFails : ℕ → Bool) (ps : List SPost) :
    ∀ (db : List (String × String)) (i : ℕ),
      (perRowFallback rowFails db ps i).1.saved +
        (perRowFallback rowFails db ps i).1.duplicates ≤ ps.length := by
  induction ps with
  | nil => intro db i; simp [perRowFallback]
  | cons p ps ih =>
    intro db i
    simp only [perRowFallback]
    cases hk : keyOf p with
    | some k =>
      dsimp only
      by_cases hmem : k ∈ db
      · rw [if_pos hmem]
        dsimp only [List.length_cons]
        have := ih db (i + 1)
        omega
      · rw [if_neg hmem]
        by_cases hf : rowFails i = true
        · rw [if_pos hf]
          dsimp only [List.length_cons]
          have := ih db (i + 1)
          omega
        · rw [if_neg hf]
          dsimp only [List.length_cons]
          have := ih (k :: db) (i + 1)
          omega
    | none =>
      dsimp only
      by_cases hf : rowFails i = true
      · rw [if_pos hf]
        dsimp only [List.length_cons]
        have := ih db (i + 1)
        omega
      · rw [if_neg hf]
        dsimp only [List.length_cons]
        have := ih db (i + 1)
        omega

theorem saveAnalyzed_bound (db : List (String × String)) (posts : List SPost)
    (mode : BulkMode) :
    (saveAnalyzedPosts db posts mode).1.saved +
      (saveAnalyzedPosts db posts mode).1.duplicates ≤ posts.length := by
  unfold saveAnalyzedPosts
  by_cases hp : posts = []
  · rw [if_pos hp]
    subst hp
    simp
  · rw [if_neg hp]
    cases mode with
    | structuralFailure rowFails =>
      dsimp only
      exact perRow_bound rowFails posts db 0
    | normal =>
      dsimp only
      have hcnt := insertMany_counts db posts
      by_cases he : (insertManyUnordered db posts).2.2 = []
      · rw [if_pos he]
        rw [he] at hcnt
        simp only [List.length_nil, Nat.add_zero] at hcnt
        show (insertManyUnordered db posts).2.1 + 0 ≤ posts.length
        omega
      · rw [if_neg he]
        have hfil : ((insertManyUnordered db posts).2.2.filter
            (fun c => c = 11000)).length ≤ (insertManyUnordered db posts).2.2.length :=
          List.length_filter_le _ _
        dsimp only
        omega

theorem saveAnalyzed_db_normal (db : List (String × String)) (posts : List SPost)
    (hp : posts ≠ []) :
    (saveAnalyzedPosts db posts BulkMode.normal).2 = (insertManyUnordered db posts).1 := by
  unfold saveAnalyzedPosts
  rw [if_neg hp]
  by_cases he : (insertManyUnordered db posts).2.2 = []
  · rw [if_pos he]
  · rw [if_neg he]

/-- C5: the Persistence save step reports `saved + duplicates ≤ batch.length`
on the bulk path and on the per-row fallback path (duplicate-key code 11000
counted as duplicate, not error), and re-submitting the same batch of
sourceUrl-carrying posts yields `saved = 0` with `duplicates = batch.length`. -/
theorem c5_persistence_counts_and_idempotence
    (db : List (String × String)) (posts : List SPost)
    (hkeys : ∀ p ∈ posts, (keyOf p).isSome = true) :
    (∀ (db2 : List (String × String)) (posts2 : List SPost) (mode2 : BulkMode),
      (saveAnalyzedPosts db2 posts2 mode2).1.saved +
        (saveAnalyzedPosts db2 posts2 mode2).1.duplicates ≤ posts2.length) ∧
    (saveAnalyzedPosts (saveAnalyzedPosts db posts BulkMode.normal).2 posts
        BulkMode.normal).1.saved = 0 ∧
    (saveAnalyzedPosts (saveAnalyzedPosts db posts BulkMode.normal).2 posts
        BulkMode.normal).1.duplicates = posts.length := by
  refine ⟨fun db2 posts2 mode2 => saveAnalyzed_bound db2 posts2 mode2, ?_⟩
  by_cases hp : posts = []
  · subst hp
    simp [saveAnalyzedPosts]
  · have hdb1 : (saveAnalyzedPosts db posts BulkMode.normal).2 =
        (insertManyUnordered db posts).1 := saveAnalyzed_db_normal db posts hp
    set db1 := (insertManyUnordered db posts).1 with hdb1def
    have hall : ∀ p ∈ posts, ∃ k, keyOf p = some k ∧ k ∈ db1 := by
      intro p hpmem
      have hks := hkeys p hpmem
      cases hk : keyOf p with
      | none => rw [hk] at hks; simp at hks
      | some k => exact ⟨k, rfl, insertMany_keys_present db posts p hpmem k hk⟩
    have hrun2 : insertManyUnordered db1 posts =
        (db1, 0, List.replicate posts.length 11000) := insertMany_all_dup db1 posts hall
    have hrep : (List.replicate posts.length 11000) ≠ ([] : List ℕ) := by
      intro hEq
      have hlen0 := congrArg List.length hEq
      rw [List.length_replicate, List.length_nil] at hlen0
      exact hp (List.eq_nil_of_length_eq_zero hlen0)
    rw [hdb1]
    unfold saveAnalyzedPosts
    rw [if_neg hp, hrun2]
    dsimp only
    rw [if_neg hrep]
    constructor
    · rfl
    · have : (List.replicate posts.length 11000).filter (fun c => c = 11000) =
          List.replicate posts.length 11000 := by
        apply List.filter_eq_self.mpr
        intro a ha
        have := List.eq_of_mem_replicate ha
        subst this
        decide
      rw [this, List.length_replicate]

theorem c5_persistence_counts_and_idempotence_witness :
    (∀ p ∈ c5posts, (keyOf p).isSome = true) ∧
    ((∀ (db2 : List (String × String)) (posts2 : List SPost) (mode2 : BulkMode),
      (saveAnalyzedPosts db2 posts2 mode2).1.saved +
        (saveAnalyzedPosts db2 posts2 mode2).1.duplicates ≤ posts2.length) ∧
    (saveAnalyzedPosts (saveAnalyzedPosts [] c5posts BulkMode.normal).2 c5posts
        BulkMode.normal).1.saved = 0 ∧
    (saveAnalyzedPosts (saveAnalyzedPosts [] c5posts BulkMode.normal).2 c5posts
        BulkMode.normal).1.duplicates = c5posts.length) :=
  ⟨by decide, c5_persistence_counts_and_idempotence [] c5posts (by decide)⟩

/-! ## C6: paused keyword groups -/

/-- C6 counterexample: for a brand whose only keyword group is paused,
`deriveGroupExecutions` does return the empty sequence and no fetcher runs,
but `runSearch` answers with the 400 "no keyword groups" error response —
it does not report `fetched: 0` (no success response is produced at all). -/
theorem c6_paused_brand_counterexample :
    deriveGroupExecutions brandPaused = [] ∧
    (runSearch (some "Acme") (some brandPaused) oracleNone).1 = RunResponse.noGroups ∧
    (runSearch (some "Acme") (some brandPaused) oracleNone).2 = [] ∧
    ∀ g f, (runSearch (some "Acme") (some brandPaused) oracleNone).1 ≠
      RunResponse.okR g f := by
  refine ⟨by decide, rfl, rfl, ?_⟩
  intro g f h
  exact RunResponse.noConfusion h

/-- C6 (amended): for every brand with a nonempty configured group list in
which every group is paused or empty (no keywords / no supported
platforms), `deriveGroupExecutions` returns the empty sequence and
`runSearch` answers with the 400 "no keyword groups configured" error
without invoking any platform Fetcher (empty call trace), rather than
reporting `fetched: 0`. -/
theorem c6_paused_brand_no_executions (brand : Brand) (bn : String)
    (oracle : String → String → Except JsError (List GPost))
    (hne : brand.keywordGroups.getD [] ≠ [])
    (hng : ∀ g ∈ brand.keywordGroups.getD [],
      (normalizeGroup brand g).paused = true ∨
        (normalizeGroup brand g).keywords = [] ∨
        (normalizeGroup brand g).platforms = [])
    (hbn : bn ≠ "") :
    deriveGroupExecutions brand = [] ∧
    runSearch (some bn) (some brand) oracle = (RunResponse.noGroups, []) := by
  have hder : deriveGroupExecutions brand = [] := by
    unfold deriveGroupExecutions
    rw [if_pos hne]
    rw [List.filter_eq_nil_iff]
    intro a ha
    obtain ⟨g, hg, rfl⟩ := List.mem_map.mp ha
    rcases hng g hg with hpause | hkw | hpl
    · simp [hpause]
    · simp [hkw]
    · simp [hpl]
  have htr : truthyOpt (some bn) = true := by simp [truthyOpt, hbn]
  refine ⟨hder, ?_⟩
  simp [runSearch, htr, hder]

theorem c6_paused_brand_no_executions_witness :
    (brandPaused.keywordGroups.getD [] ≠ [] ∧
      (∀ g ∈ brandPaused.keywordGroups.getD [],
        (normalizeGroup brandPaused g).paused = true ∨
          (normalizeGroup brandPaused g).keywords = [] ∨
          (normalizeGroup brandPaused g).platforms = []) ∧
      "Acme" ≠ "") ∧
    (deriveGroupExecutions brandPaused = [] ∧
      runSearch (some "Acme") (some brandPaused) oracleNone =
        (RunResponse.noGroups, [])) :=
  ⟨⟨by decide, by decide, by decide⟩,
    c6_paused_brand_no_executions brandPaused "Acme" oracleNone
      (by decide) (by decide) (by decide)⟩

/-! ## C9: manual correction and automated re-analysis -/

/-- C9 counterexample: the re-analysis job's query matches every post whose
sentiment is neutral or missing WITHOUT consulting `sentimentIsManual`, so
a post an analyst manually set to neutral is re-analyzed and its sentiment
silently overwritten by the automated job. -/
theorem c9_manual_neutral_overwritten_counterexample :
    manualNeutralPost.sentimentIsManual = some true ∧
    manualNeutralPost.sentiment = some "neutral" ∧
    reanalyzeStep [manualNeutralPost] reanalysisOracle =
      [⟨1, some "positive", some (9/10), some "vader_reanalysis", some true⟩] ∧
    (reanalyzeStep [manualNeutralPost] reanalysisOracle).map MPost.sentiment =
      [some "positive"] :=
  ⟨rfl, rfl, rfl, rfl⟩

/-- C9 (amended): a manual correction appends a change-log entry recording
the previous sentiment, the new value and the acting user, reports them,
and flags the post (`sentimentIsManual = true`, `sentimentSource =
"manual"`); the automated re-analysis job never overwrites a post whose
stored sentiment is non-neutral (in particular manual corrections to
positive/negative), but it does NOT consult the manual flag: a post
manually set to neutral is re-selected and can be overwritten (see the
counterexample). -/
theorem c9_manual_log_and_flag
    (store : List MPost) (logs : List ChangeLogEntry) (pid : ℕ) (user : Option ℕ)
    (sIn : String) (hval : jsToLower sIn ∈ sentimentLabels) (hne : sIn ≠ "")
    (newSent : ℕ → Option SvcResult) :
    (updateManualSentiment store logs (some pid) (some sIn) user).2.2 =
      logs ++ [⟨pid, (store.find? (fun p => p.id = pid)).bind MPost.sentiment,
        jsToLower sIn, user⟩] ∧
    (updateManualSentiment store logs (some pid) (some sIn) user).1 =
      ManualResponse.okM pid
        ((store.find? (fun p => p.id = pid)).bind MPost.sentiment) (jsToLower sIn) ∧
    (∀ p ∈ (updateManualSentiment store logs (some pid) (some sIn) user).2.1,
      p.id = pid → p.sentimentIsManual = some true ∧
        p.sentiment = some (jsToLower sIn) ∧ p.sentimentSource = some "manual") ∧
    (∀ q : MPost, (∀ s, q.sentiment = some s → s ≠ "neutral") → q.sentiment ≠ none →
      reanalyzeOne newSent q = q) := by
  have hlowne : jsToLower sIn ≠ "" := by
    intro h0
    rw [h0] at hval
    simp [sentimentLabels] at hval
  have hmain : updateManualSentiment store logs (some pid) (some sIn) user =
      (ManualResponse.okM pid
          ((store.find? (fun p => p.id = pid)).bind MPost.sentiment) (jsToLower sIn),
        applySentimentUpdate store pid ⟨some (jsToLower sIn), none, none⟩ (some "manual") true,
        logs ++ [⟨pid, (store.find? (fun p => p.id = pid)).bind MPost.sentiment,
          jsToLower sIn, user⟩]) := by
    unfold updateManualSentiment
    dsimp only
    rw [if_neg (by simp [truthyOpt, hne, hval])]
    rfl
  refine ⟨by rw [hmain], by rw [hmain], ?_, ?_⟩
  · intro p hp hpidEq
    rw [hmain] at hp
    dsimp only at hp
    unfold applySentimentUpdate at hp
    simp only [List.mem_map] at hp
    obtain ⟨q, hq, rfl⟩ := hp
    by_cases hq2 : q.id = pid
    · rw [if_pos hq2]
      refine ⟨rfl, ?_, ?_⟩
      · have : truthyOpt (some (jsToLower sIn)) = true := by simp [truthyOpt, hlowne]
        simp [this]
      · have : truthyOpt (some "manual") = true := by decide
        simp [this]
    · rw [if_neg hq2]
      rw [if_neg hq2] at hpidEq
      exact absurd hpidEq hq2
  · intro q hq hqn
    unfold reanalyzeOne
    rw [if_neg ?hcond]
    case hcond =>
      rintro (h1 | h2)
      · exact hq "neutral" h1 rfl
      · exact hqn h2

theorem c9_manual_log_and_flag_witness :
    (jsToLower "Positive" ∈ sentimentLabels ∧ "Positive" ≠ "") ∧
    ((updateManualSentiment c9store [] (some 1) (some "Positive") (some 7)).2.2 =
        [] ++ [⟨1, (c9store.find? (fun p => p.id = 1)).bind MPost.sentiment,
          jsToLower "Positive", some 7⟩] ∧
      (updateManualSentiment c9store [] (some 1) (some "Positive") (some 7)).1 =
        ManualResponse.okM 1
          ((c9store.find? (fun p => p.id = 1)).bind MPost.sentiment)
          (jsToLower "Positive") ∧
      (∀ p ∈ (updateManualSentiment c9store [] (some 1) (some "Positive") (some 7)).2.1,
        p.id = 1 → p.sentimentIsManual = some true ∧
          p.sentiment = some (jsToLower "Positive") ∧
          p.sentimentSource = some "manual") ∧
      (∀ q : MPost, (∀ s, q.sentiment = some s → s ≠ "neutral") → q.sentiment ≠ none →
        reanalyzeOne reanalysisOracle q = q)) :=
  ⟨⟨by decide, by decide⟩,
    c9_manual_log_and_flag c9store [] 1 (some 7) "Positive" (by decide) (by decide)
      reanalysisOracle⟩
